import Mathlib

/-!
# Volt Stream Analyzer — formal model

A shallow embedding of `playlist_analyzer.py` (class `PlaylistAnalyzer`):
the probe executor `check_link`, the scheduler `check_all_links`, the M3U
parser `parse_m3u`, and the aggregator `get_detailed_report`, together with
theorems checking the claims of the specification against this model.

Python strings are modelled as `List Char` (`PyStr`); Python numbers that
feed arithmetic (`response_time`, `health_percentage`) as `ℚ`; Python dicts
returned by the methods as Lean structures, where a key that may be absent
(`error`, `dead_channels_list`) is an `Option` field.  The network is an
explicit oracle: an `HttpOutcome` says what the `aiohttp` HEAD request did.
-/

namespace VoltStream

/-- Python strings, modelled as lists of characters so that every string
operation in the source is a structural function. -/
abbrev PyStr := List Char

/-- The whitespace characters stripped by Python `str.strip()` (ASCII part). -/
def isPySpace (c : Char) : Bool :=
  c = ' ' || c = '\t' || c = '\n' || c = '\r' || c = '\x0b' || c = '\x0c'

/-- Python `str.strip()`: drop whitespace from both ends. -/
def pyStrip (s : PyStr) : PyStr :=
  ((s.dropWhile isPySpace).reverse.dropWhile isPySpace).reverse

/-- The Python string split on newline characters. -/
def splitOnNl : PyStr → List PyStr
  | [] => [[]]
  | c :: cs =>
    match splitOnNl cs with
    | [] => [[]]
    | h :: t => if c = '\n' then [] :: h :: t else (c :: h) :: t

/-- The Python one-shot split on the first comma, restricted to the case
the source uses:
`some (before, after)` when a comma occurs (`len(parts) == 2`), `none`
otherwise. -/
def splitOnceComma : PyStr → Option (PyStr × PyStr)
  | [] => none
  | c :: cs =>
    if c = ',' then some ([], cs)
    else (splitOnceComma cs).map (fun p => (c :: p.1, p.2))

/-- The capture of `([^"]*)"`: characters up to the next double quote;
`none` when no closing quote exists (the regex then has no match). -/
def takeUntilQuote : PyStr → Option PyStr
  | [] => none
  | c :: cs => if c = '"' then some [] else (takeUntilQuote cs).map (c :: ·)

/-- Models the regex searches of the source, whose patterns are a literal
key followed by a quoted capture: take the suffix after the first
occurrence of `pat`, then the capture up to the closing quote.  If the
first occurrence has no closing quote then no later one has either, so
searching only the first occurrence is faithful. -/
def reSearchQuoted (pat : PyStr) : PyStr → Option PyStr
  | [] => none
  | c :: cs =>
    if pat.isPrefixOf (c :: cs) then takeUntilQuote ((c :: cs).drop pat.length)
    else reSearchQuoted pat cs

/-- What the `aiohttp` HEAD request in `check_link` can do: deliver a
response (status code and elapsed wall-clock seconds), raise
`asyncio.TimeoutError`, or raise any other exception with a message. -/
inductive HttpOutcome where
  | response (status : ℕ) (elapsed : ℚ)
  | timeout
  | failure (message : PyStr)
deriving DecidableEq

/-- The dict returned by `check_link`.  `error` is `none` exactly when the
`error` key is absent (the success branch). -/
structure ProbeResult where
  url : PyStr
  working : Bool
  status_code : ℕ
  error : Option PyStr
  response_time : ℚ
deriving DecidableEq

/-- Round-half-to-even on the integers, matching how the Python `round`
builtin ties. -/
def roundHalfEven (q : ℚ) : ℤ :=
  if q - ⌊q⌋ < 1/2 then ⌊q⌋
  else if 1/2 < q - ⌊q⌋ then ⌊q⌋ + 1
  else if ⌊q⌋ % 2 = 0 then ⌊q⌋ else ⌊q⌋ + 1

/-- Python `round(q, d)` on exact rationals. -/
def pyRound (q : ℚ) (d : ℕ) : ℚ :=
  (roundHalfEven (q * 10 ^ d) : ℚ) / 10 ^ d

/-- Model of `PlaylistAnalyzer.check_link(url, timeout)` under network
outcome `net`.  Mirrors the three paths of the source: the response branch
classifies `working` by membership of the status in `[200, 301, 302, 403]`;
the `asyncio.TimeoutError` branch reports the error text `Timeout` and
`response_time=timeout`; the generic `except` branch truncates `str(e)`
to 50 characters and reports `response_time=0`. -/
def check_link (url : PyStr) (timeout : ℕ) (net : HttpOutcome) : ProbeResult :=
  match net with
  | .response status elapsed =>
    { url := url
      working := [200, 301, 302, 403].contains status
      status_code := status
      error := none
      response_time := pyRound elapsed 2 }
  | .timeout =>
    { url := url
      working := false
      status_code := 0
      error := some "Timeout".toList
      response_time := (timeout : ℚ) }
  | .failure msg =>
    { url := url
      working := false
      status_code := 0
      error := some (msg.take 50)
      response_time := 0 }

/-- A parsed channel dict once its `url` key has been added (the shape of
every element of `self.channels`). -/
structure Channel where
  name : PyStr
  group : PyStr
  logo : PyStr
  attrs : PyStr
  url : PyStr
deriving DecidableEq

/-- The `current_channel` dict between an `#EXTINF:` line and its URL line
(no `url` key yet); `none` models the empty dict `{}`. -/
structure PendingChannel where
  name : PyStr
  group : PyStr
  logo : PyStr
  attrs : PyStr
deriving DecidableEq

/-- The dict `{**channel, **result}` built by `check_with_limit`: all
channel keys, with `url` overwritten by the copy in the probe result and the
probe fields appended. -/
structure CheckedChannel where
  name : PyStr
  group : PyStr
  logo : PyStr
  attrs : PyStr
  url : PyStr
  working : Bool
  status_code : ℕ
  error : Option PyStr
  response_time : ℚ
deriving DecidableEq

/-- The dict merge of a channel with its probe result. -/
def mergeChannelResult (ch : Channel) (r : ProbeResult) : CheckedChannel :=
  { name := ch.name
    group := ch.group
    logo := ch.logo
    attrs := ch.attrs
    url := r.url
    working := r.working
    status_code := r.status_code
    error := r.error
    response_time := r.response_time }

/-- The mutable fields of a `PlaylistAnalyzer` instance. -/
structure AnalyzerState where
  channels : List Channel
  total_channels : ℕ
  working_channels : ℕ
  dead_channels : ℕ
  checked_channels : List CheckedChannel
deriving DecidableEq

/-- Model of `PlaylistAnalyzer.__init__`. -/
def initAnalyzer : AnalyzerState :=
  { channels := []
    total_channels := 0
    working_channels := 0
    dead_channels := 0
    checked_channels := [] }

/-- Model of `PlaylistAnalyzer.check_all_links`.  `asyncio.gather`
returns one result per task in task order, so the checked list is the
positional map of `check_with_limit` over `self.channels`; the network
oracle is indexed by position, since two records may share a URL yet see
different outcomes.  `check_link` is called with its default timeout 5.
Returns the result list and the updated instance state (`checked_channels`,
`working_channels`, `dead_channels`). -/
def check_all_links (st : AnalyzerState) (net : ℕ → HttpOutcome) :
    List CheckedChannel × AnalyzerState :=
  let checked := st.channels.enum.map
    (fun p => mergeChannelResult p.2 (check_link p.2.url 5 (net p.1)))
  let working := checked.countP (fun ch => ch.working)
  ⟨checked,
   { st with
      checked_channels := checked
      working_channels := working
      dead_channels := checked.length - working }⟩

/-- A URL line: one that starts with `http://` or `https://`. -/
def isUrlLine (line : PyStr) : Bool :=
  "http://".toList.isPrefixOf line || "https://".toList.isPrefixOf line

/-- Whether the line starts with the `#EXTINF:` tag. -/
def isExtinfLine (line : PyStr) : Bool :=
  "#EXTINF:".toList.isPrefixOf line

/-- One iteration of the `for line in lines` loop of `parse_m3u`, acting on
the pair (channels emitted so far, `current_channel`). -/
def processLine (st : List Channel × Option PendingChannel) (rawLine : PyStr) :
    List Channel × Option PendingChannel :=
  let line := pyStrip rawLine
  if line = [] || line = "#EXTM3U".toList then st
  else if isExtinfLine line then
    match splitOnceComma (line.drop 8) with
    | some parts =>
      let channel_name := pyStrip parts.2
      let group := (reSearchQuoted "group-title=\"".toList parts.1).getD "Uncategorized".toList
      let logo := (reSearchQuoted "tvg-logo=\"".toList parts.1).getD []
      (st.1, some { name := channel_name, group := group, logo := logo, attrs := parts.1 })
    | none => st
  else if isUrlLine line then
    match st.2 with
    | some cur =>
      (st.1 ++ [{ name := cur.name, group := cur.group, logo := cur.logo,
                  attrs := cur.attrs, url := line }], none)
    | none => st
  else st

/-- Model of `PlaylistAnalyzer.parse_m3u` given content: on falsy
content the method returns an error dict without touching state; otherwise
it appends the parsed records to `self.channels` (starting from an empty
`current_channel`) and refreshes `self.total_channels`.  The basic-stats
dict it returns is pure and modelled separately by `get_basic_stats`. -/
def parse_m3u (st : AnalyzerState) (content : PyStr) : AnalyzerState :=
  if content = [] then st
  else
    let lines := splitOnNl (pyStrip content)
    let parsed := lines.foldl processLine (st.channels, none)
    { st with channels := parsed.1, total_channels := parsed.1.length }

/-- The histogram update `categories[group] = categories.get(group, 0) + 1` on an
insertion-ordered association list, as a Python dict. -/
def bumpGroup : List (PyStr × ℕ) → PyStr → List (PyStr × ℕ)
  | [], g => [(g, 1)]
  | (k, n) :: rest, g =>
    if k = g then (k, n + 1) :: rest else (k, n) :: bumpGroup rest g

/-- Stable insertion for descending-by-count order: a new entry goes after
every existing entry with a count at least as large, matching the tie
behaviour of the stable Python `sorted(..., reverse=True)`. -/
def insertDesc (x : PyStr × ℕ) : List (PyStr × ℕ) → List (PyStr × ℕ)
  | [] => [x]
  | y :: ys => if y.2 < x.2 then x :: y :: ys else y :: insertDesc x ys

/-- The sort `sorted(categories.items(), key=lambda x: x[1], reverse=True)`. -/
def sortByCountDesc (l : List (PyStr × ℕ)) : List (PyStr × ℕ) :=
  l.foldl (fun acc x => insertDesc x acc) []

/-- The dict returned by `get_basic_stats`. -/
structure BasicStats where
  total_channels : ℕ
  categories : List (PyStr × ℕ)
  top_5_categories : List (PyStr × ℕ)
deriving DecidableEq

/-- Model of `PlaylistAnalyzer.get_basic_stats` (reads the instance, writes nothing). -/
def get_basic_stats (st : AnalyzerState) : BasicStats :=
  let categories := st.channels.foldl (fun acc ch => bumpGroup acc ch.group) []
  let sorted_categories := sortByCountDesc categories
  { total_channels := st.total_channels
    categories := sorted_categories
    top_5_categories := sorted_categories.take 5 }

/-- The `summary` sub-dict of the detailed report. -/
structure Summary where
  total_channels : ℕ
  total_categories : ℕ
  working_channels : ℕ
  dead_channels : ℕ
  health_percentage : ℚ
  checked : Bool
deriving DecidableEq

/-- One entry of `dead_channels_list`. -/
structure DeadEntry where
  name : PyStr
  url : PyStr
  error : PyStr
deriving DecidableEq

/-- The report dict; `dead_channels_list = none` models the key being
absent (it is added only when `self.checked_channels` is truthy). -/
structure Report where
  summary : Summary
  categories : List (PyStr × ℕ)
  channels_sample : List Channel
  dead_channels_list : Option (List DeadEntry)
deriving DecidableEq

/-- The URL shown for a dead channel: the first 60 characters plus an
ellipsis when longer than 60, the URL itself otherwise. -/
def truncateUrl (u : PyStr) : PyStr :=
  if 60 < u.length then u.take 60 ++ "...".toList else u

/-- One element of the dead-channel sample. -/
def deadEntryOf (ch : CheckedChannel) : DeadEntry :=
  { name := ch.name
    url := truncateUrl ch.url
    error := ch.error.getD "No response".toList }

/-- Model of `PlaylistAnalyzer.get_detailed_report`, statement by statement. -/
def get_detailed_report (st : AnalyzerState) : Report :=
  let stats := get_basic_stats st
  let health_percentage : ℚ :=
    if 0 < st.total_channels then
      pyRound ((st.working_channels : ℚ) / (st.total_channels : ℚ) * 100) 1
    else 0
  { summary :=
      { total_channels := stats.total_channels
        total_categories := stats.categories.length
        working_channels := st.working_channels
        dead_channels := st.dead_channels
        health_percentage := health_percentage
        checked := decide (0 < st.checked_channels.length) }
    categories := stats.categories
    channels_sample := st.channels.take 10
    dead_channels_list :=
      if st.checked_channels = [] then none
      else
        some (((st.checked_channels.filter (fun ch => !ch.working)).map deadEntryOf).take 10) }

/-- The report step as a state transformer, making visible that the
method body assigns no instance field: the state it hands back is the state
it was given. -/
def get_detailed_reportS (st : AnalyzerState) : Report × AnalyzerState :=
  (get_detailed_report st, st)

/-- Where one `check_with_limit` task stands: before `async with semaphore`
(waiting), inside it (running, i.e. probing), or finished (done). -/
inductive TaskPhase where
  | waiting
  | running
  | done
deriving DecidableEq

/-- The shared state of one `check_all_links` run: the free count of the
semaphore and the phase of each task. -/
structure SchedState where
  avail : ℕ
  phases : List TaskPhase
deriving DecidableEq

/-- A fresh `asyncio.Semaphore(max_concurrent)`, all tasks created and not
yet admitted. -/
def initSched (maxConcurrent n : ℕ) : SchedState :=
  { avail := maxConcurrent, phases := List.replicate n TaskPhase.waiting }

/-- The event-loop transitions of `check_with_limit` under
`async with semaphore`: a waiting task may enter only when the semaphore
has a free slot (acquire decrements); a running task, on completing its
probe — successfully or not — leaves the `async with` block and the slot is
released unconditionally (increment). -/
inductive SchedStep : SchedState → SchedState → Prop where
  | acquire (s : SchedState) (i : ℕ)
      (hi : s.phases[i]? = some TaskPhase.waiting) (ha : 0 < s.avail) :
      SchedStep s { avail := s.avail - 1, phases := s.phases.set i TaskPhase.running }
  | release (s : SchedState) (i : ℕ)
      (hi : s.phases[i]? = some TaskPhase.running) :
      SchedStep s { avail := s.avail + 1, phases := s.phases.set i TaskPhase.done }

/-- States an execution of `check_all_links` can pass through. -/
inductive SchedReach (s0 : SchedState) : SchedState → Prop where
  | refl : SchedReach s0 s0
  | step {s s' : SchedState} : SchedReach s0 s → SchedStep s s' → SchedReach s0 s'

/-- The number of probes in flight. -/
def countRunning (s : SchedState) : ℕ :=
  s.phases.countP (fun p => decide (p = TaskPhase.running))

/-! ## Concrete fixtures used by witnesses and counterexamples -/

/-- A network oracle under which every probe times out. -/
def netTimeout : ℕ → HttpOutcome := fun _ => HttpOutcome.timeout

/-- A fresh analyzer after parsing a playlist with one channel. -/
def stParsed : AnalyzerState :=
  parse_m3u initAnalyzer "#EXTINF:-1,Dead\nhttp://dead.example/x".toList

/-- The one channel of `stParsed`. -/
def chDead : Channel :=
  { name := "Dead".toList
    group := "Uncategorized".toList
    logo := []
    attrs := "-1".toList
    url := "http://dead.example/x".toList }

/-- The state `stParsed` after a check run in which the single probe timed out:
one channel total, none working. -/
def stDead : AnalyzerState := (check_all_links stParsed netTimeout).2

/-- One parsed channel whose probe answered 200, then a check run:
one channel total, one working. -/
def stAlive : AnalyzerState :=
  (check_all_links (parse_m3u initAnalyzer "#EXTINF:-1,A\nhttp://a.example/x".toList)
    (fun _ => HttpOutcome.response 200 (1/2))).2

/-! ## Claim theorems -/

/-- C1: for every URL, timeout and network outcome, `check_link` resolves
to a fully populated `ProbeResult` dict echoing the input URL — the
`try/except asyncio.TimeoutError/except Exception` structure leaves no
path that propagates a fault to the caller, so one bad URL cannot abort
the batch. -/
theorem check_link_total_contract (url : PyStr) (timeout : ℕ) (net : HttpOutcome) :
    ∃ w s e r, check_link url timeout net =
      { url := url, working := w, status_code := s, error := e, response_time := r } := by
  cases net <;> exact ⟨_, _, _, _, rfl⟩

/-- C2: on any HTTP response, `check_link` classifies `working = true`
exactly when the status code is one of 200, 301, 302, 403; in particular a
403 response is classified working. -/
theorem check_link_working_iff_status (url : PyStr) (timeout : ℕ) (s : ℕ) (e : ℚ) :
    ((check_link url timeout (HttpOutcome.response s e)).working = true ↔
      (s = 200 ∨ s = 301 ∨ s = 302 ∨ s = 403)) ∧
    (check_link url timeout (HttpOutcome.response 403 e)).working = true := by
  constructor
  · simp [check_link, List.contains]
  · simp [check_link, List.contains]

/-- C5: on timeout expiry `check_link` returns `working=false`,
`status_code=0`, the error text `Timeout`, `response_time=timeout`; on any other
failure it returns `working=false`, `status_code=0`, the error message
truncated to at most 50 characters, and `response_time=0`. -/
theorem check_link_failure_modes (url : PyStr) (timeout : ℕ) (msg : PyStr) :
    check_link url timeout HttpOutcome.timeout =
      { url := url, working := false, status_code := 0,
        error := some "Timeout".toList, response_time := (timeout : ℚ) } ∧
    check_link url timeout (HttpOutcome.failure msg) =
      { url := url, working := false, status_code := 0,
        error := some (msg.take 50), response_time := 0 } ∧
    (msg.take 50).length ≤ 50 := by
  refine ⟨rfl, rfl, ?_⟩
  simp

/-- C3: `check_all_links` produces exactly one checked result per channel
record: the output list has the length of `self.channels`. -/
theorem check_all_links_preserves_length (st : AnalyzerState) (net : ℕ → HttpOutcome)
    (h : st.channels ≠ []) :
    ((check_all_links st net).1).length = st.channels.length := by
  simp [check_all_links]

/-- Witness for C3 at the one-channel fixture. -/
theorem check_all_links_preserves_length_witness :
    ((check_all_links stParsed netTimeout).1).length = stParsed.channels.length :=
  check_all_links_preserves_length stParsed netTimeout (by decide)

/-- C6 counterexample: the claim says a skipped-check report omits the
health fields entirely, but the summary dict literal of
`get_detailed_report` includes `working_channels`, `dead_channels` and
`health_percentage` unconditionally — in the embedding they are mandatory
fields of `Summary` for exactly that reason, while `dead_channels_list` is
an `Option` because only that key is added conditionally.  Concretely, at
the parsed-but-unchecked fixture (one channel, link checking skipped) the
summary still carries all three health keys, populated with their computed
values. -/
theorem report_skipped_keeps_health_keys :
    stParsed.checked_channels = [] ∧
    (get_detailed_report stParsed).summary.checked = false ∧
    (get_detailed_report stParsed).summary.working_channels = 0 ∧
    (get_detailed_report stParsed).summary.dead_channels = 0 ∧
    (get_detailed_report stParsed).summary.health_percentage = 0 := by
  have h1 : stParsed.total_channels = 1 := by decide
  have h2 : stParsed.working_channels = 0 := by decide
  have h3 : stParsed.dead_channels = 0 := by decide
  have h4 : stParsed.checked_channels = [] := by decide
  refine ⟨h4, ?_, ?_, ?_, ?_⟩ <;>
    simp [get_detailed_report, h1, h2, h3, h4, pyRound, roundHalfEven]

/-- C6 (amended): when `self.checked_channels` is empty (link checking
skipped), the report carries no `dead_channels_list` key and
`summary.checked` is false — but the health fields are not omitted: the
summary still holds `working_channels`, `dead_channels` and the
`health_percentage` computed from the instance counters, exactly as in a
checked run. -/
theorem report_skipped_check_behavior (st : AnalyzerState)
    (h : st.checked_channels = []) :
    (get_detailed_report st).dead_channels_list = none ∧
    (get_detailed_report st).summary.checked = false ∧
    (get_detailed_report st).summary.working_channels = st.working_channels ∧
    (get_detailed_report st).summary.dead_channels = st.dead_channels ∧
    (get_detailed_report st).summary.health_percentage =
      (if 0 < st.total_channels then
        pyRound ((st.working_channels : ℚ) / (st.total_channels : ℚ) * 100) 1
      else 0) := by
  refine ⟨?_, ?_, rfl, rfl, rfl⟩ <;> simp [get_detailed_report, h]

/-- Witness for C6 (amended) at a parsed-but-unchecked fixture. -/
theorem report_skipped_check_behavior_witness :
    (get_detailed_report stParsed).dead_channels_list = none ∧
    (get_detailed_report stParsed).summary.checked = false ∧
    (get_detailed_report stParsed).summary.working_channels = stParsed.working_channels ∧
    (get_detailed_report stParsed).summary.dead_channels = stParsed.dead_channels ∧
    (get_detailed_report stParsed).summary.health_percentage =
      (if 0 < stParsed.total_channels then
        pyRound ((stParsed.working_channels : ℚ) / (stParsed.total_channels : ℚ) * 100) 1
      else 0) :=
  report_skipped_check_behavior stParsed (by decide)

/-- C8: `get_detailed_report` leaves the analyzer state untouched and a
second run on that state produces the identical report. -/
theorem get_detailed_report_idempotent_pure (st : AnalyzerState) :
    (get_detailed_reportS st).2 = st ∧
    (get_detailed_reportS ((get_detailed_reportS st).2)).1 = (get_detailed_reportS st).1 :=
  ⟨rfl, rfl⟩

/-- C10: `check_all_links` pairs positionally — the i-th element of the
returned list is the merge of the i-th input channel with its own probe
result (`asyncio.gather` preserves task order). -/
theorem check_all_links_positional_pairing (st : AnalyzerState)
    (net : ℕ → HttpOutcome) (i : ℕ) (ch : Channel)
    (h : st.channels[i]? = some ch) :
    ((check_all_links st net).1)[i]? =
      some (mergeChannelResult ch (check_link ch.url 5 (net i))) := by
  simp [check_all_links, List.getElem?_map, List.getElem?_enum, h]

/-- Witness for C10 at index 0 of the one-channel fixture. -/
theorem check_all_links_positional_pairing_witness :
    ((check_all_links stParsed netTimeout).1)[0]? =
      some (mergeChannelResult chDead (check_link chDead.url 5 (netTimeout 0))) :=
  check_all_links_positional_pairing stParsed netTimeout 0 chDead (by decide)

/-- Rounding half-to-even never goes below an integer lower bound. -/
lemma le_roundHalfEven (n : ℤ) (q : ℚ) (h : (n : ℚ) ≤ q) : n ≤ roundHalfEven q := by
  have hn : n ≤ ⌊q⌋ := Int.le_floor.mpr h
  unfold roundHalfEven
  split_ifs <;> omega

/-- Rounding half-to-even never goes above an integer upper bound: rounding up
happens only when the fractional part is at least one half, hence only
strictly inside the bound. -/
lemma roundHalfEven_le (n : ℤ) (q : ℚ) (h : q ≤ (n : ℚ)) : roundHalfEven q ≤ n := by
  have hfl : ⌊q⌋ ≤ n := by simpa using Int.floor_le_floor h
  have hstrict : ¬(q - ⌊q⌋ < 1/2) → ⌊q⌋ + 1 ≤ n := by
    intro h1
    have h2 : (1 : ℚ)/2 ≤ q - ⌊q⌋ := not_lt.mp h1
    have h3 : (⌊q⌋ : ℚ) < q := by linarith
    have h4 : (⌊q⌋ : ℚ) < (n : ℚ) := lt_of_lt_of_le h3 h
    have h5 : ⌊q⌋ < n := by exact_mod_cast h4
    omega
  unfold roundHalfEven
  split_ifs with h1 h2 h3
  · exact hfl
  · exact hstrict h1
  · exact hfl
  · exact hstrict h1

/-- Rounding to one decimal keeps a quantity from `[0, 100]` in `[0, 100]`. -/
lemma pyRound1_bounds (q : ℚ) (h0 : 0 ≤ q) (h100 : q ≤ 100) :
    0 ≤ pyRound q 1 ∧ pyRound q 1 ≤ 100 := by
  have e0 : ((0 : ℤ) : ℚ) ≤ q * 10 ^ 1 := by
    norm_num
    linarith
  have e1 : q * 10 ^ 1 ≤ ((1000 : ℤ) : ℚ) := by
    norm_num
    linarith
  have hl : (0 : ℤ) ≤ roundHalfEven (q * 10 ^ 1) := le_roundHalfEven 0 (q * 10 ^ 1) e0
  have hu : roundHalfEven (q * 10 ^ 1) ≤ (1000 : ℤ) := roundHalfEven_le 1000 (q * 10 ^ 1) e1
  have hl' : (0 : ℚ) ≤ (roundHalfEven (q * 10 ^ 1) : ℚ) := by exact_mod_cast hl
  have hu' : (roundHalfEven (q * 10 ^ 1) : ℚ) ≤ 1000 := by exact_mod_cast hu
  unfold pyRound
  constructor
  · apply div_nonneg hl'
    norm_num
  · rw [div_le_iff₀ (by norm_num : (0:ℚ) < 10 ^ 1)]
    linarith

/-- C4 (amended): in any analyzer state where the working count does not
exceed the total (as after any check run), `health_percentage` lies in
`[0, 100]`, equals `round(working/total*100, 1)` when the total is
positive, and equals 0 when the total is 0.  The converse of the last part
is false: see the counterexample of an all-dead playlist. -/
theorem health_percentage_in_range (st : AnalyzerState)
    (hw : st.working_channels ≤ st.total_channels) :
    0 ≤ (get_detailed_report st).summary.health_percentage ∧
    (get_detailed_report st).summary.health_percentage ≤ 100 ∧
    (st.total_channels = 0 → (get_detailed_report st).summary.health_percentage = 0) ∧
    (0 < st.total_channels →
      (get_detailed_report st).summary.health_percentage =
        pyRound ((st.working_channels : ℚ) / (st.total_channels : ℚ) * 100) 1) := by
  have hrep : (get_detailed_report st).summary.health_percentage =
      if 0 < st.total_channels then
        pyRound ((st.working_channels : ℚ) / (st.total_channels : ℚ) * 100) 1
      else 0 := rfl
  rcases Nat.eq_zero_or_pos st.total_channels with hz | hp
  · rw [hrep, if_neg (by omega)]
    refine ⟨le_refl 0, by norm_num, fun _ => rfl, fun hc => absurd hc (by omega)⟩
  · rw [hrep, if_pos hp]
    have ht : (0 : ℚ) < (st.total_channels : ℚ) := by exact_mod_cast hp
    have hq0 : (0 : ℚ) ≤ (st.working_channels : ℚ) / (st.total_channels : ℚ) * 100 := by
      positivity
    have hq1 : (st.working_channels : ℚ) / (st.total_channels : ℚ) ≤ 1 := by
      rw [div_le_one ht]
      exact_mod_cast hw
    have hq100 : (st.working_channels : ℚ) / (st.total_channels : ℚ) * 100 ≤ 100 := by
      nlinarith
    obtain ⟨hb0, hb100⟩ := pyRound1_bounds _ hq0 hq100
    exact ⟨hb0, hb100, fun hc => absurd hc (by omega), fun _ => rfl⟩

/-- Witness for C4 (amended) at the checked one-channel fixture. -/
theorem health_percentage_in_range_witness :
    0 ≤ (get_detailed_report stAlive).summary.health_percentage ∧
    (get_detailed_report stAlive).summary.health_percentage ≤ 100 ∧
    (stAlive.total_channels = 0 →
      (get_detailed_report stAlive).summary.health_percentage = 0) ∧
    (0 < stAlive.total_channels →
      (get_detailed_report stAlive).summary.health_percentage =
        pyRound ((stAlive.working_channels : ℚ) / (stAlive.total_channels : ℚ) * 100) 1) :=
  health_percentage_in_range stAlive (by decide)

/-- C4 counterexample: for a playlist of one channel whose probe timed out,
the report has `health_percentage = 0` yet `total_channels = 1`, so
"`health_percentage` is 0 exactly when the total is 0" fails in the
only-if direction. -/
theorem health_zero_iff_total_zero_false :
    ¬(((get_detailed_report stDead).summary.health_percentage = 0) ↔
      stDead.total_channels = 0) := by
  have hh : (get_detailed_report stDead).summary.health_percentage = 0 := by
    have h1 : stDead.total_channels = 1 := by decide
    have h2 : stDead.working_channels = 0 := by decide
    simp [get_detailed_report, h1, h2, pyRound, roundHalfEven]
  intro hiff
  exact absurd (hiff.mp hh) (by decide)

/-- Each scheduler transition conserves free slots plus in-flight probes:
acquiring moves one unit from the semaphore to the running count, releasing
moves it back. -/
lemma schedStep_invariant {s s' : SchedState} (h : SchedStep s s') :
    s'.avail + countRunning s' = s.avail + countRunning s := by
  cases h with
  | acquire i hi ha =>
    have hlen : i < s.phases.length := by
      by_contra hlen
      rw [List.getElem?_eq_none (by omega)] at hi
      cases hi
    have hget : s.phases[i] = TaskPhase.waiting := by
      rw [List.getElem?_eq_getElem hlen] at hi
      exact (Option.some_inj.mp hi)
    unfold countRunning
    simp only [List.countP_set _ _ _ _ hlen, hget]
    simp
    omega
  | release i hi =>
    have hlen : i < s.phases.length := by
      by_contra hlen
      rw [List.getElem?_eq_none (by omega)] at hi
      cases hi
    have hget : s.phases[i] = TaskPhase.running := by
      rw [List.getElem?_eq_getElem hlen] at hi
      exact (Option.some_inj.mp hi)
    have hpos : 0 < countRunning s := by
      rw [countRunning, List.countP_pos_iff]
      exact ⟨s.phases[i], List.getElem_mem hlen, by simp [hget]⟩
    unfold countRunning at hpos ⊢
    simp only [List.countP_set _ _ _ _ hlen, hget]
    simp
    omega

/-- C9: in every state an execution of `check_all_links` can reach, at most
`maxConcurrent` probes are in flight — a task enters the probing phase only
by taking a semaphore slot and gives the slot back exactly when it
finishes, so free slots plus running probes stay equal to the initial
semaphore value. -/
theorem bounded_concurrency (maxConcurrent n : ℕ) (s : SchedState)
    (h : SchedReach (initSched maxConcurrent n) s) :
    countRunning s ≤ maxConcurrent := by
  have key : ∀ t, SchedReach (initSched maxConcurrent n) t →
      t.avail + countRunning t = maxConcurrent := by
    intro t ht
    induction ht with
    | refl =>
      simp [initSched, countRunning, List.countP_eq_zero, List.mem_replicate]
    | step hr hs ih => rw [schedStep_invariant hs]; exact ih
  have := key s h
  omega

/-- Witness for C9 at the initial state of a 3-task run with the default
bound of 20. -/
theorem bounded_concurrency_witness : countRunning (initSched 20 3) ≤ 20 :=
  bounded_concurrency 20 3 (initSched 20 3) SchedReach.refl

/-- An `#EXTINF:` line the parser can actually use: it must contain a comma
(`len(parts) == 2`), otherwise `current_channel` is left untouched. -/
def isExtinfWellformed (line : PyStr) : Bool :=
  isExtinfLine line && (splitOnceComma (line.drop 8)).isSome

/-- 1 when a `current_channel` is pending, 0 when it is the empty dict. -/
def pendingCount : Option PendingChannel → ℕ
  | none => 0
  | some _ => 1

/-- One parser step emits at most one record, and only on a URL line. -/
lemma processLine_fst_length (s : List Channel × Option PendingChannel) (l : PyStr) :
    (processLine s l).1.length ≤ s.1.length + (if isUrlLine (pyStrip l) then 1 else 0) := by
  unfold processLine
  by_cases h1 : pyStrip l = [] ∨ pyStrip l = "#EXTM3U".toList
  · simp only [decide_eq_true_eq, Bool.or_eq_true] at *
    rw [if_pos h1]
    omega
  · simp only [decide_eq_true_eq, Bool.or_eq_true] at *
    rw [if_neg h1]
    by_cases h2 : isExtinfLine (pyStrip l) = true
    · rw [if_pos h2]
      cases hsc : splitOnceComma ((pyStrip l).drop 8) <;> simp [hsc]
    · rw [if_neg h2]
      by_cases h3 : isUrlLine (pyStrip l) = true
      · rw [if_pos h3, if_pos h3]
        cases hp : s.2 <;> simp [hp]
      · rw [if_neg h3, if_neg h3]
        omega

/-- One parser step never increases emitted records plus pending metadata
by more than the well-formed `#EXTINF:` lines it consumes: only such a line
creates a pending channel, and emission spends a pending channel. -/
lemma processLine_potential (s : List Channel × Option PendingChannel) (l : PyStr) :
    (processLine s l).1.length + pendingCount (processLine s l).2 ≤
      s.1.length + pendingCount s.2 +
        (if isExtinfWellformed (pyStrip l) then 1 else 0) := by
  unfold processLine
  by_cases h1 : pyStrip l = [] ∨ pyStrip l = "#EXTM3U".toList
  · simp only [decide_eq_true_eq, Bool.or_eq_true] at *
    rw [if_pos h1]
    omega
  · simp only [decide_eq_true_eq, Bool.or_eq_true] at *
    rw [if_neg h1]
    by_cases h2 : isExtinfLine (pyStrip l) = true
    · cases hsc : splitOnceComma ((pyStrip l).drop 8) with
      | none =>
        rw [if_pos h2]
        simp [hsc]
      | some parts =>
        rw [if_pos h2]
        have hw : isExtinfWellformed (pyStrip l) = true := by
          simp [isExtinfWellformed, h2, hsc]
        cases hp : s.2 <;> simp [hsc, hw, hp, pendingCount]
    · rw [if_neg h2]
      by_cases h3 : isUrlLine (pyStrip l) = true
      · rw [if_pos h3]
        cases hp : s.2 <;> simp [hp, pendingCount]
      · rw [if_neg h3]
        omega

/-- The parser loop over all lines: records emitted are bounded by the URL
lines seen, and records plus pending metadata by the well-formed
`#EXTINF:` lines seen. -/
lemma foldl_processLine_bounds :
    ∀ (lines : List PyStr) (s : List Channel × Option PendingChannel),
      ((lines.foldl processLine s).1).length ≤
        s.1.length + lines.countP (fun l => isUrlLine (pyStrip l)) ∧
      ((lines.foldl processLine s).1).length + pendingCount ((lines.foldl processLine s).2) ≤
        s.1.length + pendingCount s.2 +
          lines.countP (fun l => isExtinfWellformed (pyStrip l)) := by
  intro lines
  induction lines with
  | nil => intro s; simp
  | cons l rest ih =>
    intro s
    obtain ⟨ihA, ihB⟩ := ih (processLine s l)
    have hA := processLine_fst_length s l
    have hB := processLine_potential s l
    rw [List.foldl_cons]
    rw [List.countP_cons, List.countP_cons]
    constructor
    · refine le_trans ihA ?_
      by_cases hu : isUrlLine (pyStrip l) = true <;> simp [hu] at hA ⊢ <;> omega
    · refine le_trans ihB ?_
      by_cases he : isExtinfWellformed (pyStrip l) = true <;> simp [he] at hB ⊢ <;> omega

/-- C7 (amended): a record is emitted only by pairing a well-formed
`#EXTINF:` line with a later URL line — each record consumes one URL line
and one well-formed metadata line, so a playlist emits no more records
than it has of either; in particular metadata with no following URL line
is dropped.  (The pairing need not be immediate: see the counterexample.) -/
theorem parse_m3u_needs_metadata_and_url (content : PyStr) :
    (parse_m3u initAnalyzer content).channels.length ≤
      (splitOnNl (pyStrip content)).countP (fun l => isUrlLine (pyStrip l)) ∧
    (parse_m3u initAnalyzer content).channels.length ≤
      (splitOnNl (pyStrip content)).countP (fun l => isExtinfWellformed (pyStrip l)) := by
  unfold parse_m3u
  by_cases hc : content = []
  · rw [if_pos hc]
    simp [initAnalyzer]
  · rw [if_neg hc]
    have hch : initAnalyzer.channels = [] := rfl
    rw [hch]
    obtain ⟨hA, hB⟩ := foldl_processLine_bounds (splitOnNl (pyStrip content))
      ([], none)
    simp only [List.length_nil, pendingCount] at hA hB
    constructor
    · show (List.foldl processLine ([], none) (splitOnNl (pyStrip content))).1.length ≤ _
      omega
    · show (List.foldl processLine ([], none) (splitOnNl (pyStrip content))).1.length ≤ _
      omega

/-- C7 counterexample: in the playlist whose lines are `#EXTINF:-1,Name`,
`foo`, `http://x`, the metadata line is immediately followed by the non-URL
line `foo`, yet the parser still emits the record — `current_channel`
survives unrecognized lines, so "immediately followed by a URL line" does
not hold of the code. -/
theorem parse_m3u_emits_despite_gap :
    (parse_m3u initAnalyzer "#EXTINF:-1,Name\nfoo\nhttp://x".toList).channels =
      [{ name := "Name".toList, group := "Uncategorized".toList, logo := [],
         attrs := "-1".toList, url := "http://x".toList }] ∧
    splitOnNl (pyStrip "#EXTINF:-1,Name\nfoo\nhttp://x".toList) =
      ["#EXTINF:-1,Name".toList, "foo".toList, "http://x".toList] ∧
    isExtinfLine (pyStrip "#EXTINF:-1,Name".toList) = true ∧
    isUrlLine (pyStrip "foo".toList) = false ∧
    isUrlLine (pyStrip "http://x".toList) = true := by decide

end VoltStream
